import Mathlib

/-!
Verification of the `ha-gismeteo` core (Gismeteo API client and file cache)
against its natural-language specification.

The development is a shallow embedding of the Python sources
`custom_components/gismeteo/api.py`, `custom_components/gismeteo/cache.py`
and `custom_components/gismeteo/const.py`.  Python dictionaries holding
weather records become a structure with one optional field per attribute;
Python `None` propagation, truthiness, exceptions (`TypeError`,
`ValueError`, `IndexError`, ...) and the `or` operator are modelled
explicitly; wall-clock time and the filesystem are passed as explicit
state.  Machine floats are modelled by exact rationals (and, where the
code calls `math.exp`, by real numbers); the numeric margins in the
theorems below dominate any float rounding error by many orders of
magnitude.
-/

namespace Gismeteo

/-- Python exception kinds that the embedded code can raise or catch. -/
inductive PyErr
  | typeError
  | valueError
  | arithmeticError
  | indexError
  deriving DecidableEq, Repr

/-- Python scalar values, as far as the embedded code needs them.
`bool` is kept separate, but note that in Python `bool` is a subclass of
`int`, so booleans count as numbers for `isinstance(x, int | float)`. -/
inductive PyVal
  | none
  | int (n : ℤ)
  | float (q : ℚ)
  | str (s : String)
  | bool (b : Bool)
  deriving DecidableEq, Repr

/-- Embedding of `isinstance(x, int | float)` (api.py line 158).  Python booleans are
instances of `int`. -/
def PyVal.isNumber : PyVal → Bool
  | .int _ => true
  | .float _ => true
  | .bool _ => true
  | _ => false

/-- Numeric value of a Python number (booleans coerce to 0/1);
junk value 0 on non-numbers, which the embedded code never consults. -/
def PyVal.toRat : PyVal → ℚ
  | .int n => (n : ℚ)
  | .float q => q
  | .bool b => if b then 1 else 0
  | _ => 0

/-! ## Cache (`cache.py`)

The filesystem is an explicit map from paths to entries; `now` is the
value of `time.time()`.  Both mtimes and `now` are rationals, the TTLs
are integers (as in the configuration). -/

/-- One filesystem entry: `os.path.exists` is true when the entry is
present; `os.path.isfile` additionally requires `isFile`. -/
structure FileEntry where
  isFile : Bool
  mtime : ℚ
  content : String
  deriving DecidableEq

/-- The filesystem state, as a partial map from paths to entries. -/
def FileSystem : Type := String → Option FileEntry

/-- The cache configuration taken from `params` in `Cache.__init__`:
`cache_dir`, `cache_time` (default 0) and the optional `domain`. -/
structure CacheCfg where
  cacheDir : String
  cacheTime : ℤ
  domain : Option String
  deriving DecidableEq

/-- Embedding of `os.path.join` for the two-argument uses in `cache.py` (relative
second component). -/
def joinPath (dir name : String) : String :=
  if dir = "" then name
  else if dir.endsWith "/" then dir ++ name
  else dir ++ "/" ++ name

/-- Embedding of `Cache._get_file_path` (cache.py lines 54-58): prepend `{domain}.`
when a domain is configured and truthy (non-empty). -/
def get_file_path (cfg : CacheCfg) (name : String) : String :=
  joinPath cfg.cacheDir
    (match cfg.domain with
      | some d => if d = "" then name else d ++ "." ++ name
      | Option.none => name)

/-- Embedding of `Cache.is_cached` (cache.py lines 71-81): the file must exist, be a
regular file, and satisfy `mtime + max(cache_time, self._cache_time) >
time.time()`. -/
def is_cached (fs : FileSystem) (now : ℚ) (cfg : CacheCfg)
    (name : String) (cacheTime : ℤ) : Bool :=
  match fs (get_file_path cfg name) with
  | Option.none => false
  | some e =>
      if ¬ e.isFile then false
      else decide (e.mtime + (max cacheTime cfg.cacheTime : ℤ) > now)

/-- Embedding of `Cache.read_cache` (cache.py lines 83-91): delegate freshness to
`is_cached`, then return the file contents. -/
def read_cache (fs : FileSystem) (now : ℚ) (cfg : CacheCfg)
    (name : String) (cacheTime : ℤ) : Option String :=
  if is_cached fs now cfg name cacheTime then
    (fs (get_file_path cfg name)).map (·.content)
  else Option.none

/-! ## Fetcher (`GismeteoApiClient._async_get_data`, api.py lines 200-225)

`cache.py` version 3.1.0 declares `is_cached`, `read_cache` and
`save_cache` as `async def` coroutine functions, but api.py lines
208, 210 and 223 call them *without* `await`.  In Python, calling a
coroutine function returns a coroutine object without running its body:

  * `if self._cache.is_cached(cache_fname):` tests the truthiness of a
    coroutine object, which is always `True` — the freshness check in
    the coroutine body never runs;
  * `return self._cache.read_cache(cache_fname)` returns the unawaited
    `read_cache` coroutine object, not the cached text;
  * `self._cache.save_cache(cache_fname, data)` creates a coroutine
    that is never awaited, so no cache file is ever written.

The embedding below is faithful to these semantics.  The returned value
is either a text body or an (unawaited) coroutine object, and the output
additionally records whether an HTTP GET was issued and which cache
writes actually happened. -/

/-- The value `_async_get_data` evaluates to: a response body, or the
unawaited `read_cache(fname)` coroutine object. -/
inductive FetchVal
  | text (s : String)
  | readCacheCoro (fname : String)
  deriving DecidableEq, Repr

/-- An HTTP response: status code and body text. -/
structure HttpResp where
  status : ℕ
  body : String
  deriving DecidableEq

/-- The client state that `_async_get_data` reads: optional cache
configuration (`self._cache` is `None` when no `cache_dir` param was
given, api.py line 132), the filesystem, the clock, and the network
(response delivered for each URL). -/
structure ClientEnv where
  cache : Option CacheCfg
  fs : FileSystem
  now : ℚ
  http : String → HttpResp

/-- Outcome of one `_async_get_data` call: the result (or a raised
`ApiError` message), whether the HTTP GET was issued, and the list of
cache files actually written. -/
structure GetDataOut where
  result : Except String FetchVal
  httpCalled : Bool
  cacheWrites : List (String × String)

/-- Embedding of `GismeteoApiClient._async_get_data` (api.py lines 200-225).

When a cache is configured and a cache filename is given, the source
appends `".xml"`, then tests `self._cache.is_cached(cache_fname)` — an
unawaited coroutine object, always truthy — and returns the unawaited
`self._cache.read_cache(cache_fname)` coroutine.  Otherwise it issues
the GET; a non-200 status raises
`ApiError(f"Invalid response from Gismeteo API: {resp.status}")`.  The
write-through line 223 is only reached when the cache or the filename is
absent, so its condition `self._cache and cache_fname is not None and
data` is false there and no write occurs (and the unawaited `save_cache`
coroutine would not write anyway). -/
def async_get_data (env : ClientEnv) (url : String)
    (cacheFname : Option String) : GetDataOut :=
  match env.cache, cacheFname with
  | some _, some f =>
      { result := .ok (.readCacheCoro (f ++ ".xml"))
        httpCalled := false
        cacheWrites := [] }
  | _, _ =>
      let resp := env.http url
      if resp.status ≠ 200 then
        { result := .error ("Invalid response from Gismeteo API: " ++ toString resp.status)
          httpCalled := true
          cacheWrites := [] }
      else
        { result := .ok (.text resp.body)
          httpCalled := true
          cacheWrites := [] }

/-! ## Coordinate validation and client construction (api.py 120-164) -/

/-- Embedding of `GismeteoApiClient._valid_coordinates` (api.py lines 154-164): both
arguments must be instances of `int | float` and satisfy
`abs(latitude) <= 90 and abs(longitude) <= 180`; any `AssertionError`
or `TypeError` yields `False`. -/
def valid_coordinates (latitude longitude : PyVal) : Bool :=
  if latitude.isNumber ∧ longitude.isNumber then
    decide (|latitude.toRat| ≤ 90 ∧ |longitude.toRat| ≤ 180)
  else false

/-- The location identity stored in `self._attributes` after
construction. -/
inductive Attrs
  | byId (id : ℤ)
  | byCoords (latitude longitude : PyVal)
  deriving DecidableEq, Repr

/-- Constructor-time failure. -/
inductive InitErr
  | invalidCoordinates
  deriving DecidableEq, Repr

/-- Embedding of `GismeteoApiClient.__init__` location handling (api.py lines
135-147): a given `location_key` wins; otherwise valid coordinates are
stored; otherwise `InvalidCoordinatesError` is raised. -/
def client_init (locationKey : Option ℤ) (latitude longitude : PyVal) :
    Except InitErr Attrs :=
  match locationKey with
  | some k => .ok (.byId k)
  | Option.none =>
      if valid_coordinates latitude longitude then
        .ok (.byCoords latitude longitude)
      else .error .invalidCoordinates

/-! ## The coercion helper `_get` (api.py lines 302-310) -/

/-- Embedding of `dict.get(k)`: the stored value, or Python `None` when absent. -/
def pyGet (d : String → Option PyVal) (k : String) : PyVal :=
  (d k).getD .none

/-- Embedding of `GismeteoApiClient._get` (api.py lines 302-310): fetch the raw
value; when a converter is given, apply it and turn a raised
`TypeError`, `ValueError` or `ArithmeticError` into `None`.  Other
exceptions would propagate, hence the `Except` result type. -/
def _get (d : String → Option PyVal) (k : String)
    (func : Option (PyVal → Except PyErr PyVal)) : Except PyErr PyVal :=
  match func with
  | Option.none => .ok (pyGet d k)
  | some f =>
      match f (pyGet d k) with
      | .ok v => .ok v
      | .error e =>
          if e = .typeError ∨ e = .valueError ∨ e = .arithmeticError then
            .ok .none
          else .error e

/-! ## Weather records and the Merge & Derive accessors (api.py)

A weather record is the attribute dictionary built by `async_update`;
per the fixed field lists there, each field is either present or
Python `None`, which an `Option` captures.  Timestamps (`time`,
`sunrise`, `sunset`) are modelled as integers on one common axis. -/

/-- Forecast mode (`ForecastMode.HOURLY` / `ForecastMode.DAILY`,
compared by `mode == ForecastMode.DAILY` in api.py). -/
inductive Mode
  | hourly
  | daily
  deriving DecidableEq, Repr

/-- The condition labels (`ATTR_CONDITION_*`) that
`GismeteoApiClient.condition` can return. -/
inductive Cond
  | sunny
  | clearNight
  | partlycloudy
  | cloudy
  | lightning
  | lightningRainy
  | rainy
  | pouring
  | snowy
  | snowyRainy
  | windy
  | windyVariant
  | fog
  deriving DecidableEq, Repr

/-- One weather record (the `data` dictionaries of api.py lines 634-657
and 673-695), restricted to the fields the verified accessors read. -/
structure WRecord where
  cloud_coverage : Option ℤ
  sunrise : Option ℤ
  sunset : Option ℤ
  time : Option ℤ
  precipitation_type : Option ℤ
  precipitation_intensity : Option ℤ
  is_storm : Option Bool
  wind_speed : Option ℚ
  phenomenon : Option ℤ
  precipitation_amount : Option ℚ
  temperature : Option ℚ
  humidity : Option ℚ
  deriving DecidableEq, Repr

/-- A record with every field absent. -/
def emptyRecord : WRecord :=
  { cloud_coverage := Option.none
    sunrise := Option.none
    sunset := Option.none
    time := Option.none
    precipitation_type := Option.none
    precipitation_intensity := Option.none
    is_storm := Option.none
    wind_speed := Option.none
    phenomenon := Option.none
    precipitation_amount := Option.none
    temperature := Option.none
    humidity := Option.none }

/-- Embedding of `CONDITION_FOG_CLASSES` (const.py lines 108-130). -/
def CONDITION_FOG_CLASSES : List ℤ :=
  [11, 12, 28, 40, 41, 42, 43, 44, 45, 46, 47, 48, 49,
   120, 130, 131, 132, 133, 134, 135, 528]

/-- The base assignment of `GismeteoApiClient.condition` (api.py lines
319-333): a label from the cloud-coverage code, where for code 0 the
daily mode or the chained comparison
`src.get(SUNRISE) < src.get(TIME, now()) < src.get(SUNSET)` decides
between sunny and clear-night.  A `None` operand of the chained
comparison raises `TypeError` (the right comparison is short-circuited
when the left one is false). -/
def conditionBase (now : ℤ) (src : WRecord) (mode : Mode) (cld : ℤ) :
    Except PyErr Cond :=
  if cld = 0 then
    if mode = .daily then .ok Cond.sunny
    else
      match src.sunrise with
      | Option.none => .error PyErr.typeError
      | some sr =>
        if sr < src.time.getD now then
          match src.sunset with
          | Option.none => .error PyErr.typeError
          | some ss =>
              .ok (if src.time.getD now < ss then Cond.sunny else Cond.clearNight)
        else .ok Cond.clearNight
  else if cld = 1 then .ok Cond.partlycloudy
  else if cld = 2 then .ok Cond.partlycloudy
  else .ok Cond.cloudy

/-- Embedding of `GismeteoApiClient.condition` (api.py lines 312-363), with `now`
standing for `dt_util.now()`.

Python partiality is kept: the base assignment can raise `TypeError`
(`conditionBase`), and `self.wind_speed(src) > 10.8` raises `TypeError`
when the wind speed is `None`.  `pr_type != 0` is true for Python
`None`, and `if src.get(IS_STORM):` is a truthiness test. -/
def condition (now : ℤ) (src : WRecord) (mode : Mode) :
    Except PyErr (Option Cond) :=
  match src.cloud_coverage with
  | Option.none => .ok Option.none
  | some cld =>
    match conditionBase now src mode cld with
    | .error e => .error e
    | .ok base =>
      if src.is_storm.getD false then
        .ok (some (if src.precipitation_type ≠ some 0 then Cond.lightningRainy else Cond.lightning))
      else if src.precipitation_type = some 1 then
        .ok (some (if src.precipitation_intensity = some 3 then Cond.pouring else Cond.rainy))
      else if src.precipitation_type = some 2 then
        .ok (some Cond.snowy)
      else if src.precipitation_type = some 3 then
        .ok (some Cond.snowyRainy)
      else
        match src.wind_speed with
        | Option.none => .error PyErr.typeError
        | some w =>
          if w > 108 / 10 then
            .ok (some (if base = Cond.cloudy then Cond.windyVariant else Cond.windy))
          else if decide (cld = 0) &&
              (match src.phenomenon with
                | some p => decide (p ∈ CONDITION_FOG_CLASSES)
                | Option.none => false) then
            .ok (some Cond.fog)
          else
            .ok (some base)

/-- The base label as worded by the specification (spec.md §4.6 rule
1): 0 → sunny if daytime (daily mode, or sunrise < time < sunset) else
clear-night; 1 or 2 → partly-cloudy; otherwise cloudy. -/
def conditionSpecBase (now : ℤ) (src : WRecord) (mode : Mode) (cld : ℤ) : Cond :=
  let t := src.time.getD now
  let daytime : Bool :=
    decide (mode = .daily) ||
      (match src.sunrise, src.sunset with
        | some sr, some ss => decide (sr < t ∧ t < ss)
        | _, _ => false)
  if cld = 0 then (if daytime then .sunny else .clearNight)
  else if cld = 1 ∨ cld = 2 then .partlycloudy
  else .cloudy

/-- The classification as worded by the specification (spec.md §4.6
item `condition`): a base label from cloud coverage, then rules 2-7 in
fixed order with first-match-wins; null cloud coverage short-circuits
to null.  A comparison against a null field simply does not match. -/
def conditionSpec (now : ℤ) (src : WRecord) (mode : Mode) : Option Cond :=
  match src.cloud_coverage with
  | Option.none => Option.none
  | some cld =>
    let base : Cond := conditionSpecBase now src mode cld
    some (
      if src.is_storm.getD false then
        (if src.precipitation_type ≠ some 0 then .lightningRainy else .lightning)
      else if src.precipitation_type = some 1 then
        (if src.precipitation_intensity = some 3 then .pouring else .rainy)
      else if src.precipitation_type = some 2 then .snowy
      else if src.precipitation_type = some 3 then .snowyRainy
      else if (match src.wind_speed with
                | some w => decide (w > 108 / 10)
                | Option.none => false) then
        (if base = .cloudy then .windyVariant else .windy)
      else if decide (cld = 0) &&
          (match src.phenomenon with
            | some p => decide (p ∈ CONDITION_FOG_CLASSES)
            | Option.none => false) then .fog
      else base)

/-! ## Rain and snow amounts (api.py lines 479-501) -/

/-- Embedding of `PRECIPITATION_AMOUNT` (const.py line 132). -/
def PRECIPITATION_AMOUNT : List ℚ := [0, 2, 6, 16]

/-- Python tuple indexing `t[i]` where `i` came from `dict.get`:
`None` raises `TypeError`, a negative index counts from the end, and an
out-of-range index raises `IndexError`. -/
def pyTupleIndex (l : List ℚ) (i : Option ℤ) : Except PyErr ℚ :=
  match i with
  | Option.none => .error .typeError
  | some n =>
      let j : ℤ := if n < 0 then n + l.length else n
      if 0 ≤ j ∧ j < l.length then .ok (l.getD j.toNat 0)
      else .error .indexError

/-- Embedding of `GismeteoApiClient.rain_amount` (api.py lines 479-489):
`(amount or PRECIPITATION_AMOUNT[intensity]) if type in [1, 3] else 0`.
Python `or` falls through on *falsy* values, so both a missing amount
(`None`) and an explicit amount `0.0` use the lookup table. -/
def rain_amount (src : WRecord) : Except PyErr ℚ :=
  if src.precipitation_type ∈ ([some 1, some 3] : List (Option ℤ)) then
    match src.precipitation_amount with
    | some a =>
        if a ≠ 0 then .ok a
        else pyTupleIndex PRECIPITATION_AMOUNT src.precipitation_intensity
    | Option.none => pyTupleIndex PRECIPITATION_AMOUNT src.precipitation_intensity
  else .ok 0

/-- Embedding of `GismeteoApiClient.snow_amount` (api.py lines 491-501): same as
`rain_amount` with precipitation types `[2, 3]`. -/
def snow_amount (src : WRecord) : Except PyErr ℚ :=
  if src.precipitation_type ∈ ([some 2, some 3] : List (Option ℤ)) then
    match src.precipitation_amount with
    | some a =>
        if a ≠ 0 then .ok a
        else pyTupleIndex PRECIPITATION_AMOUNT src.precipitation_intensity
    | Option.none => pyTupleIndex PRECIPITATION_AMOUNT src.precipitation_intensity
  else .ok 0

/-- Claim C6 as stated: when the type matches, the *presence* of an
explicit amount alone decides between the amount and the table. -/
def rain_amount_claimC6 (src : WRecord) : Except PyErr ℚ :=
  if src.precipitation_type ∈ ([some 1, some 3] : List (Option ℤ)) then
    match src.precipitation_amount with
    | some a => .ok a
    | Option.none => pyTupleIndex PRECIPITATION_AMOUNT src.precipitation_intensity
  else .ok 0

/-- Amended C6: the explicit amount is used only when present *and
non-zero* (Python truthiness); otherwise the table value indexed by the
intensity code; 0 when the type does not match. -/
def rain_amount_amended (src : WRecord) : Except PyErr ℚ :=
  if src.precipitation_type ∉ ([some 1, some 3] : List (Option ℤ)) then .ok 0
  else if (match src.precipitation_amount with
            | some a => decide (a ≠ 0)
            | Option.none => false) then
    .ok (src.precipitation_amount.getD 0)
  else pyTupleIndex PRECIPITATION_AMOUNT src.precipitation_intensity

/-- Amended C6 for snow (types 2 and 3). -/
def snow_amount_amended (src : WRecord) : Except PyErr ℚ :=
  if src.precipitation_type ∉ ([some 2, some 3] : List (Option ℤ)) then .ok 0
  else if (match src.precipitation_amount with
            | some a => decide (a ≠ 0)
            | Option.none => false) then
    .ok (src.precipitation_amount.getD 0)
  else pyTupleIndex PRECIPITATION_AMOUNT src.precipitation_intensity

/-! ## Apparent temperature (api.py lines 375-385) -/

/-- Python `round(x, 1)` modelled over the reals.  Mathlib's `round`
rounds half-up while Python rounds half-to-even; the two agree away
from exact ties, and every use below is bounded away from a tie by a
margin that also dominates binary-float rounding error. -/
noncomputable def pyRound1 (x : ℝ) : ℝ :=
  ((round (10 * x) : ℤ) : ℝ) / 10

/-- Embedding of `GismeteoApiClient.apparent_temperature` (api.py lines 375-385):
`None` if any of temperature, humidity, wind speed is `None`, otherwise
`round(temp + 0.348 * e - 0.7 * wind - 4.25, 1)` with
`e = humi * 0.06105 * exp(17.27 * temp / (237.7 + temp))`. -/
noncomputable def apparent_temperature (src : WRecord) : Option ℝ :=
  match src.temperature, src.humidity, src.wind_speed with
  | some temp, some humi, some wind =>
      some (pyRound1 ((temp : ℝ) +
        0.348 * ((humi : ℝ) * 0.06105 *
          Real.exp ((17.27 * (temp : ℝ)) / (237.7 + (temp : ℝ)))) -
        0.7 * (wind : ℝ) - 4.25))
  | _, _, _ => Option.none

/-! ## The forecast loop (`GismeteoApiClient.forecast`, api.py 551-602)

The loop builds a derived display dictionary `data` from each record
(lines 564-595) and accumulates the results: a record whose timestamp
is strictly before `now` *replaces* the whole accumulator, any other
record is appended.  The per-record derivation is abstracted as a
function `derive`; the accumulator mechanics — the subject of the
claim — are kept exactly. -/

/-- The body of the `for` loop of `forecast`, with the accumulator
explicit.  Records without a timestamp are skipped (`continue`). -/
def forecastLoop {α : Type} (now : ℤ) (derive : WRecord → α) :
    List WRecord → List α → List α
  | [], acc => acc
  | r :: rest, acc =>
      match r.time with
      | Option.none => forecastLoop now derive rest acc
      | some t =>
          if t < now then forecastLoop now derive rest [derive r]
          else forecastLoop now derive rest (acc ++ [derive r])

/-- Embedding of `GismeteoApiClient.forecast`: run the loop from the empty
accumulator over the (chronologically ordered) stored series. -/
def forecastF {α : Type} (now : ℤ) (derive : WRecord → α)
    (records : List WRecord) : List α :=
  forecastLoop now derive records []

/-! # Theorems for the claims -/

/-- C3: `is_cached` is true iff the derived path exists, is a regular
file, and `mtime + max(ttlOverride, defaultTtl) > now`; `read_cache`
returns exactly the file's text when `is_cached` holds and null
otherwise. -/
theorem cache_is_cached_read_cache_c3
    (fs : FileSystem) (now : ℚ) (cfg : CacheCfg) (name : String) (ttl : ℤ) :
    (is_cached fs now cfg name ttl = true ↔
      ∃ e, fs (get_file_path cfg name) = some e ∧ e.isFile = true ∧
        (e.mtime + ((max ttl cfg.cacheTime : ℤ) : ℚ) > now)) ∧
    (∀ s, read_cache fs now cfg name ttl = some s ↔
      (is_cached fs now cfg name ttl = true ∧
        ∃ e, fs (get_file_path cfg name) = some e ∧ e.content = s)) ∧
    (is_cached fs now cfg name ttl = false →
      read_cache fs now cfg name ttl = Option.none) := by
  refine ⟨?_, ?_, ?_⟩
  · unfold is_cached
    cases hfs : fs (get_file_path cfg name) with
    | none => simp
    | some e =>
        by_cases hf : e.isFile
        · simp [hf]
        · simp [hf]
  · intro s
    unfold read_cache
    by_cases hc : is_cached fs now cfg name ttl
    · simp only [hc, if_true]
      cases hfs : fs (get_file_path cfg name) with
      | none =>
          -- impossible: `is_cached` saw a file at this path
          exfalso
          unfold is_cached at hc
          rw [hfs] at hc
          simp at hc
      | some e => simp [hc, hfs, eq_comm]
    · simp [hc]
  · intro hc
    unfold read_cache
    simp [hc]

/-- Closed witness for C3: a fresh one-file filesystem round-trips the
cached text. -/
theorem cache_is_cached_read_cache_c3_witness :
    read_cache
      (fun p => if p = "city_1.xml" then
          some { isFile := true, mtime := 100, content := "X" }
        else Option.none)
      130 { cacheDir := "", cacheTime := 60, domain := Option.none }
      "city_1.xml" 0 = some "X" := by
  refine ((cache_is_cached_read_cache_c3 _ 130 _ "city_1.xml" 0).2.1 "X").mpr
    ⟨?_, ⟨{ isFile := true, mtime := 100, content := "X" }, ?_, rfl⟩⟩
  · show is_cached _ 130 _ "city_1.xml" 0 = true
    unfold is_cached get_file_path joinPath
    norm_num
  · show (if get_file_path _ "city_1.xml" = "city_1.xml" then _ else Option.none) = _
    unfold get_file_path joinPath
    norm_num

/-- C7: whenever `_async_get_data` actually issues the HTTP GET and the
response status is not 200, the call fails with an `ApiError` whose
message carries the status code, and no cache write occurs. -/
theorem get_data_non_200_c7 (env : ClientEnv) (url : String)
    (cacheFname : Option String)
    (hhttp : (async_get_data env url cacheFname).httpCalled = true)
    (hstatus : (env.http url).status ≠ 200) :
    (async_get_data env url cacheFname).result =
      .error ("Invalid response from Gismeteo API: " ++ toString (env.http url).status) ∧
    (async_get_data env url cacheFname).cacheWrites = [] := by
  obtain ⟨cache, fs0, now0, http0⟩ := env
  cases cache with
  | some cfg =>
      cases cacheFname with
      | some f => simp [async_get_data] at hhttp
      | none => exact ⟨by simp [async_get_data, hstatus], by simp [async_get_data, hstatus]⟩
  | none =>
      cases cacheFname with
      | some f => exact ⟨by simp [async_get_data, hstatus], by simp [async_get_data, hstatus]⟩
      | none => exact ⟨by simp [async_get_data, hstatus], by simp [async_get_data, hstatus]⟩

/-- The client environment of the C7 witness: no cache, 404 network. -/
def env404 : ClientEnv :=
  { cache := Option.none, fs := fun _ => Option.none, now := 0,
    http := fun _ => { status := 404, body := "" } }

/-- Closed witness for C7: a 404 response with no cache configured. -/
theorem get_data_non_200_c7_witness :
    (async_get_data env404 "https://example/u" Option.none).result =
      .error "Invalid response from Gismeteo API: 404" := by
  exact (get_data_non_200_c7 env404 "https://example/u" Option.none rfl (by decide)).1

/-- C8: `_get` with a converter that raises `TypeError`, `ValueError`
or an `ArithmeticError` returns Python `None` instead of propagating,
and `_get` without a converter returns the raw value unchanged. -/
theorem get_helper_degrades_c8 (d : String → Option PyVal) (k : String) :
    (∀ (f : PyVal → Except PyErr PyVal) (e : PyErr),
      f (pyGet d k) = .error e →
      (e = .typeError ∨ e = .valueError ∨ e = .arithmeticError) →
      _get d k (some f) = .ok .none) ∧
    _get d k Option.none = .ok (pyGet d k) := by
  constructor
  · intro f e hf he
    simp only [_get, hf]
    simp [he]
  · rfl

/-- Closed witness for C8: a converter raising `ValueError` on the raw
value degrades to `None`. -/
theorem get_helper_degrades_c8_witness :
    _get (fun _ => some (.str "abc")) "k"
      (some fun _ => .error .valueError) = .ok .none := by
  exact (get_helper_degrades_c8 _ "k").1 _ .valueError rfl (Or.inr (Or.inl rfl))

/-- C9: coordinate validation accepts exactly the numeric pairs with
`|lat| ≤ 90` and `|lon| ≤ 180`; when it rejects and no location id is
given, client construction fails with `InvalidCoordinatesError`. -/
theorem valid_coordinates_c9 (lat lon : PyVal) :
    (valid_coordinates lat lon = true ↔
      (lat.isNumber = true ∧ lon.isNumber = true ∧
        |lat.toRat| ≤ 90 ∧ |lon.toRat| ≤ 180)) ∧
    (valid_coordinates lat lon = false →
      client_init Option.none lat lon = .error .invalidCoordinates) := by
  constructor
  · unfold valid_coordinates
    by_cases h : lat.isNumber = true ∧ lon.isNumber = true
    · simp [h.1, h.2, and_assoc]
    · simp only [if_neg h, Bool.false_eq_true, false_iff]
      intro hcon
      exact h ⟨hcon.1, hcon.2.1⟩
  · intro hv
    unfold client_init
    simp [hv]

/-- Closed witness for C9: in-range numeric coordinates are accepted;
a string latitude is rejected and construction fails. -/
theorem valid_coordinates_c9_witness :
    valid_coordinates (.float (111 / 2)) (.float 37) = true ∧
    client_init Option.none (.str "abc") (.float 37) =
      .error .invalidCoordinates := by
  constructor
  · exact (valid_coordinates_c9 (.float (111 / 2)) (.float 37)).1.mpr
      ⟨rfl, rfl, by norm_num [PyVal.toRat, abs_le], by norm_num [PyVal.toRat, abs_le]⟩
  · exact (valid_coordinates_c9 (.str "abc") (.float 37)).2 rfl

/-- The cache configuration of the C1 scenario. -/
def cfgC1 : CacheCfg := { cacheDir := "", cacheTime := 3600, domain := Option.none }

/-- The filesystem of the C1 scenario: one fresh cache file
`forecast_1.xml` with content `"X"`. -/
def fsC1 : FileSystem := fun p =>
  if p = "forecast_1.xml" then
    some { isFile := true, mtime := 1000, content := "X" }
  else Option.none

/-- The client environment of the C1 scenario: cache configured, clock
such that the cache entry is fresh, network answering 200/"fresh". -/
def envC1 : ClientEnv :=
  { cache := some cfgC1, fs := fsC1, now := 1010,
    http := fun _ => { status := 200, body := "fresh" } }

/-- C1 (code bug): with a cache configured and a fresh cached entry,
`Cache.is_cached` would report the key fresh and `Cache.read_cache`
would yield the cached text `"X"`, and `_async_get_data` indeed issues
no HTTP GET — but it returns the unawaited `read_cache` coroutine
object, not the cached text, because api.py calls the `async def` cache
methods without `await`. -/
theorem cache_fresh_hit_returns_coroutine_c1 :
    is_cached fsC1 1010 cfgC1 "forecast_1.xml" 0 = true ∧
    read_cache fsC1 1010 cfgC1 "forecast_1.xml" 0 = some "X" ∧
    (async_get_data envC1 "https://example/forecast" (some "forecast_1")).httpCalled = false ∧
    (async_get_data envC1 "https://example/forecast" (some "forecast_1")).result =
      .ok (.readCacheCoro "forecast_1.xml") ∧
    (async_get_data envC1 "https://example/forecast" (some "forecast_1")).result ≠
      .ok (.text "X") := by
  refine ⟨?_, ?_, rfl, rfl, ?_⟩
  · unfold is_cached get_file_path joinPath fsC1 cfgC1
    norm_num
  · unfold read_cache is_cached get_file_path joinPath fsC1 cfgC1
    norm_num
  · show Except.ok (FetchVal.readCacheCoro "forecast_1.xml") ≠ _
    intro h
    simp at h

/-- The C6 counterexample record: rain (type 1), an explicit
precipitation amount of 0, intensity code 2. -/
def recC6 : WRecord :=
  { emptyRecord with
      precipitation_type := some 1
      precipitation_amount := some 0
      precipitation_intensity := some 2 }

/-- C6 counterexample: with precipitation type 1, an *explicit* amount
of 0 and intensity code 2, the code returns the table value 6 (Python
`or` treats the present amount `0.0` as falsy), while the claim as
stated says the present explicit amount 0 is returned. -/
theorem rain_amount_c6_counterexample :
    rain_amount recC6 = .ok 6 ∧
    rain_amount_claimC6 recC6 = .ok 0 ∧
    rain_amount recC6 ≠ rain_amount_claimC6 recC6 := by
  refine ⟨rfl, rfl, ?_⟩
  intro h
  rw [show rain_amount recC6 = .ok 6 from rfl,
    show rain_amount_claimC6 recC6 = .ok 0 from rfl] at h
  simp at h

/-- C6 amended: `rain_amount` returns 0 unless the precipitation type
is 1 or 3; with a matching type it returns the explicit amount exactly
when that amount is present *and non-zero*, and otherwise the
`PRECIPITATION_AMOUNT` table value indexed by the intensity code;
`snow_amount` is identical with types 2 and 3. -/
theorem rain_snow_amount_amended_c6 (src : WRecord) :
    rain_amount src = rain_amount_amended src ∧
    snow_amount src = snow_amount_amended src := by
  constructor
  · unfold rain_amount rain_amount_amended
    by_cases hpt : src.precipitation_type ∈ ([some 1, some 3] : List (Option ℤ))
    · rw [if_pos hpt, if_neg (not_not_intro hpt)]
      cases ha : src.precipitation_amount with
      | none => simp
      | some a =>
          by_cases h0 : a = 0
          · simp [h0]
          · simp [h0]
    · rw [if_neg hpt, if_pos hpt]
  · unfold snow_amount snow_amount_amended
    by_cases hpt : src.precipitation_type ∈ ([some 2, some 3] : List (Option ℤ))
    · rw [if_pos hpt, if_neg (not_not_intro hpt)]
      cases ha : src.precipitation_amount with
      | none => simp
      | some a =>
          by_cases h0 : a = 0
          · simp [h0]
          · simp [h0]
    · rw [if_neg hpt, if_pos hpt]

/-! ### C4: forecast history pruning -/

/-- When every record in the suffix has a timestamp not in the past,
the loop appends all of them. -/
theorem forecastLoop_all_future {α : Type} (now : ℤ) (derive : WRecord → α)
    (ys : List WRecord) (acc : List α)
    (h : ∀ r ∈ ys, ∃ t, r.time = some t ∧ ¬ t < now) :
    forecastLoop now derive ys acc = acc ++ ys.map derive := by
  induction ys generalizing acc with
  | nil => simp [forecastLoop]
  | cons r rest ih =>
      obtain ⟨t, ht, hge⟩ := h r (List.mem_cons_self r rest)
      rw [show forecastLoop now derive (r :: rest) acc =
          forecastLoop now derive rest (acc ++ [derive r]) by
        simp [forecastLoop, ht, hge]]
      rw [ih _ (fun r' hr' => h r' (List.mem_cons_of_mem r hr'))]
      simp

/-- C4: iterating chronologically, a record strictly in the past
replaces the accumulator by the singleton of its derived output and any
other record is appended, so a series split into past records followed
by non-past records keeps exactly the last past record plus all the
others; in particular records at `now-2, now-1, now+1, now+2` yield
exactly the outputs for `now-1, now+1, now+2`. -/
theorem forecast_history_pruning_c4 {α : Type} (now : ℤ) (derive : WRecord → α) :
    (∀ (xs ys : List WRecord),
      (∀ r ∈ xs, ∃ t, r.time = some t ∧ t < now) →
      (∀ r ∈ ys, ∃ t, r.time = some t ∧ ¬ t < now) →
      forecastF now derive (xs ++ ys) =
        (match xs.getLast? with
          | some l => [derive l]
          | Option.none => []) ++ ys.map derive) ∧
    (∀ r1 r2 r3 r4 : WRecord,
      r1.time = some (now - 2) → r2.time = some (now - 1) →
      r3.time = some (now + 1) → r4.time = some (now + 2) →
      forecastF now derive [r1, r2, r3, r4] = [derive r2, derive r3, derive r4]) := by
  have key : ∀ (xs : List WRecord) (ys : List WRecord) (acc : List α),
      (∀ r ∈ xs, ∃ t, r.time = some t ∧ t < now) →
      (∀ r ∈ ys, ∃ t, r.time = some t ∧ ¬ t < now) →
      forecastLoop now derive (xs ++ ys) acc =
        (match xs.getLast? with
          | some l => [derive l]
          | Option.none => acc) ++ ys.map derive := by
    intro xs
    induction xs with
    | nil =>
        intro ys acc _ hys
        simpa using forecastLoop_all_future now derive ys acc hys
    | cons x xs' ih =>
        intro ys acc hxs hys
        obtain ⟨t, ht, hlt⟩ := hxs x (List.mem_cons_self x xs')
        rw [show forecastLoop now derive ((x :: xs') ++ ys) acc =
            forecastLoop now derive (xs' ++ ys) [derive x] by
          simp [forecastLoop, ht, hlt]]
        rw [ih ys [derive x] (fun r' hr' => hxs r' (List.mem_cons_of_mem x hr')) hys]
        cases xs' with
        | nil => simp
        | cons y ys' =>
            cases hgl : (y :: ys').getLast? with
            | none => simp at hgl
            | some l => simp [List.getLast?_cons_cons, hgl]
  constructor
  · intro xs ys hxs hys
    exact key xs ys [] hxs hys
  · intro r1 r2 r3 r4 h1 h2 h3 h4
    have := key [r1, r2] [r3, r4] []
      (by
        intro r hr
        rcases List.mem_pair.mp hr with h | h <;> subst h
        · exact ⟨now - 2, h1, by omega⟩
        · exact ⟨now - 1, h2, by omega⟩)
      (by
        intro r hr
        rcases List.mem_pair.mp hr with h | h <;> subst h
        · exact ⟨now + 1, h3, by omega⟩
        · exact ⟨now + 2, h4, by omega⟩)
    rw [forecastF]
    simpa using this

/-- Closed witness record for C4 at time `now - 2`. -/
def recPast2 : WRecord := { emptyRecord with time := some (-2) }

/-- Closed witness record for C4 at time `now - 1`. -/
def recPast1 : WRecord := { emptyRecord with time := some (-1) }

/-- Closed witness record for C4 at time `now + 1`. -/
def recFut1 : WRecord := { emptyRecord with time := some 1 }

/-- Closed witness record for C4 at time `now + 2`. -/
def recFut2 : WRecord := { emptyRecord with time := some 2 }

/-- Closed witness for C4: with `now = 0` and records at times
`-2, -1, 1, 2`, the forecast output keeps exactly the records at
`-1, 1, 2`. -/
theorem forecast_history_pruning_c4_witness :
    forecastF 0 (fun r => r.time.getD 0) [recPast2, recPast1, recFut1, recFut2] =
      [-1, 1, 2] := by
  exact ((forecast_history_pruning_c4 0 (fun r => r.time.getD 0)).2
    recPast2 recPast1 recFut1 recFut2 rfl rfl rfl rfl).trans (by decide)

/-! ### C2 and C10: the condition classification -/

/-- The base assignment agrees with the specification's base label
whenever the daytime comparison is well defined (cloud code 0 in hourly
mode requires sunrise and sunset to be present). -/
theorem conditionBase_matches (now : ℤ) (src : WRecord) (mode : Mode) (cld : ℤ)
    (hday : cld = 0 → mode = .hourly →
      src.sunrise.isSome = true ∧ src.sunset.isSome = true) :
    conditionBase now src mode cld = .ok (conditionSpecBase now src mode cld) := by
  unfold conditionBase conditionSpecBase
  by_cases h0 : cld = 0
  · by_cases hm : mode = .daily
    · simp [h0, hm]
    · have hmode : mode = .hourly := by
        cases mode with
        | hourly => rfl
        | daily => exact absurd rfl hm
      obtain ⟨hsr, hss⟩ := hday h0 hmode
      obtain ⟨sr, hsr⟩ := Option.isSome_iff_exists.mp hsr
      obtain ⟨ss, hss⟩ := Option.isSome_iff_exists.mp hss
      by_cases hlt1 : sr < src.time.getD now
      · by_cases hlt2 : src.time.getD now < ss
        · simp [h0, hm, hsr, hss, hlt1, hlt2]
        · simp [h0, hm, hsr, hss, hlt1, hlt2]
      · simp [h0, hm, hsr, hss, hlt1]
  · by_cases h1 : cld = 1
    · simp [h0, h1]
    · by_cases h2 : cld = 2
      · simp [h0, h1, h2]
      · simp [h0, h1, h2]

/-- Rules 2-7 of the classification, starting from an agreed base
label, agree with the specification's first-match-wins chain whenever
the wind speed is present when rule 6 is reached. -/
theorem condition_rule_chain (storm : Bool) (pt pii : Option ℤ)
    (ws : Option ℚ) (fogOk : Bool) (B : Cond)
    (hwind : storm = false →
      pt ∉ ([some 1, some 2, some 3] : List (Option ℤ)) → ws.isSome = true) :
    (if storm then
      Except.ok (some (if pt ≠ some 0 then Cond.lightningRainy else Cond.lightning))
    else if pt = some 1 then
      Except.ok (some (if pii = some 3 then Cond.pouring else Cond.rainy))
    else if pt = some 2 then Except.ok (some Cond.snowy)
    else if pt = some 3 then Except.ok (some Cond.snowyRainy)
    else
      match ws with
      | Option.none => Except.error PyErr.typeError
      | some w =>
          if w > 108 / 10 then
            Except.ok (some (if B = Cond.cloudy then Cond.windyVariant else Cond.windy))
          else if fogOk then Except.ok (some Cond.fog)
          else Except.ok (some B)) =
    Except.ok (some (
      if storm then (if pt ≠ some 0 then Cond.lightningRainy else Cond.lightning)
      else if pt = some 1 then (if pii = some 3 then Cond.pouring else Cond.rainy)
      else if pt = some 2 then Cond.snowy
      else if pt = some 3 then Cond.snowyRainy
      else if (match ws with
        | some w => decide (w > 108 / 10)
        | Option.none => false) then
        (if B = Cond.cloudy then Cond.windyVariant else Cond.windy)
      else if fogOk then Cond.fog
      else B)) := by
  cases storm with
  | true => simp
  | false =>
      by_cases h1 : pt = some 1
      · simp [h1]
      · by_cases h2 : pt = some 2
        · simp [h1, h2]
        · by_cases h3 : pt = some 3
          · simp [h1, h2, h3]
          · obtain ⟨w, hw⟩ := Option.isSome_iff_exists.mp
              (hwind rfl (by simp [h1, h2, h3]))
            by_cases hgt : w > 108 / 10
            · simp [h1, h2, h3, hw, hgt]
            · by_cases hfog : fogOk = true
              · simp [h1, h2, h3, hw, hgt, hfog]
              · simp [h1, h2, h3, hw, hgt, hfog]

/-- C2: wherever its evaluation is defined (the daytime comparison has
its operands when cloud code 0 is classified in hourly mode, and the
wind speed is present when rule 6 is reached), `condition` computes
exactly the specification's classification: base label from cloud
coverage, rules 2-7 in fixed order, first match wins, and null cloud
coverage yields null with no further rule applied. -/
theorem condition_matches_spec_c2 (now : ℤ) (src : WRecord) (mode : Mode)
    (hday : src.cloud_coverage = some 0 → mode = .hourly →
      src.sunrise.isSome = true ∧ src.sunset.isSome = true)
    (hwind : src.cloud_coverage.isSome = true →
      src.is_storm.getD false = false →
      src.precipitation_type ∉ ([some 1, some 2, some 3] : List (Option ℤ)) →
      src.wind_speed.isSome = true) :
    condition now src mode = .ok (conditionSpec now src mode) := by
  cases hcld : src.cloud_coverage with
  | none => simp [condition, conditionSpec, hcld]
  | some cld =>
      have hb := conditionBase_matches now src mode cld
        (fun h0 hm => hday (by rw [hcld, h0]) hm)
      simp only [condition, conditionSpec, hcld, hb]
      exact condition_rule_chain _ _ _ _ _ _
        (fun hst hpt => hwind (by rw [hcld]; rfl) hst hpt)

/-- The C2 witness record: overcast, storm flag set, rain. -/
def recC2 : WRecord :=
  { emptyRecord with
      cloud_coverage := some 3
      is_storm := some true
      precipitation_type := some 1 }

/-- Closed witness for C2: the theorem applied to a concrete stormy
record (the result is the lightning-rainy label). -/
theorem condition_matches_spec_c2_witness :
    condition 0 recC2 .hourly = .ok (conditionSpec 0 recC2 .hourly) ∧
    conditionSpec 0 recC2 .hourly = some Cond.lightningRainy := by
  exact ⟨condition_matches_spec_c2 0 recC2 .hourly (by decide) (by decide), by decide⟩

/-- C10: `condition` is not total.  For a record with a non-null cloud
code, storm flag not set, precipitation type outside {1,2,3} and a null
wind speed, evaluation raises `TypeError` at the `wind > 10.8`
comparison instead of returning a label or null (provided the base
assignment itself got past its daytime comparison). -/
theorem condition_wind_none_type_error_c10 (now : ℤ) (src : WRecord) (mode : Mode)
    (hcld : src.cloud_coverage.isSome = true)
    (hstorm : src.is_storm.getD false = false)
    (hpt : src.precipitation_type ∉ ([some 1, some 2, some 3] : List (Option ℤ)))
    (hws : src.wind_speed = Option.none)
    (hday : src.cloud_coverage = some 0 → mode = .hourly →
      src.sunrise.isSome = true ∧ src.sunset.isSome = true) :
    condition now src mode = .error PyErr.typeError := by
  obtain ⟨cld, hcld'⟩ := Option.isSome_iff_exists.mp hcld
  have hb := conditionBase_matches now src mode cld
    (fun h0 hm => hday (by rw [hcld', h0]) hm)
  have h1 : src.precipitation_type ≠ some 1 := fun h => hpt (by simp [h])
  have h2 : src.precipitation_type ≠ some 2 := fun h => hpt (by simp [h])
  have h3 : src.precipitation_type ≠ some 3 := fun h => hpt (by simp [h])
  simp only [condition, hcld', hb]
  simp [hstorm, h1, h2, h3, hws]

/-- The C10 witness record: overcast, no storm, no precipitation, null
wind speed. -/
def recC10 : WRecord :=
  { emptyRecord with
      cloud_coverage := some 3
      is_storm := some false
      precipitation_type := some 0 }

/-- Closed witness for C10: the theorem applied to a concrete record
with null wind speed. -/
theorem condition_wind_none_type_error_c10_witness :
    condition 0 recC10 .hourly = .error PyErr.typeError := by
  exact condition_wind_none_type_error_c10 0 recC10 .hourly
    (by decide) (by decide) (by decide) rfl (by decide)

/-- The C5 witness record: temperature -7 °C, humidity 86 %, wind
3 m/s. -/
def recC5 : WRecord :=
  { emptyRecord with
      temperature := some (-7)
      humidity := some 86
      wind_speed := some 3 }

/-- C5: `apparent_temperature` is null whenever any of temperature,
humidity or wind speed is null; for temperature -7, humidity 86 and
wind speed 3 it returns exactly -12.3 (the real-valued feels-like
`-12.268...` rounded to one decimal). -/
theorem apparent_temperature_c5 :
    (∀ src : WRecord,
      (src.temperature = Option.none ∨ src.humidity = Option.none ∨
        src.wind_speed = Option.none) →
      apparent_temperature src = Option.none) ∧
    apparent_temperature recC5 = some (-(123 / 10 : ℝ)) := by
  constructor
  · intro src h
    rcases h with h | h | h
    · simp [apparent_temperature, h]
    · cases ht : src.temperature <;> simp [apparent_temperature, h, ht]
    · cases ht : src.temperature <;> cases hh : src.humidity <;>
        simp [apparent_temperature, h, ht, hh]
  · have hrec : apparent_temperature recC5 =
        some (pyRound1 (((-7 : ℚ) : ℝ) +
          0.348 * (((86 : ℚ) : ℝ) * 0.06105 *
            Real.exp ((17.27 * ((-7 : ℚ) : ℝ)) / (237.7 + ((-7 : ℚ) : ℝ)))) -
          0.7 * ((3 : ℚ) : ℝ) - 4.25)) := rfl
    rw [hrec]
    have harg : (17.27 * ((-7 : ℚ) : ℝ)) / (237.7 + ((-7 : ℚ) : ℝ)) =
        -(12089 / 23070 : ℝ) := by
      push_cast
      norm_num
    rw [harg]
    set E := Real.exp (-(12089 / 23070 : ℝ)) with hE
    have habs : |(-(12089 / 23070 : ℝ))| ≤ 1 := by
      rw [abs_neg, abs_of_nonneg (by norm_num : (0 : ℝ) ≤ 12089 / 23070)]
      norm_num
    have hb := @Real.exp_bound (-(12089 / 23070 : ℝ)) habs 4 (by norm_num)
    rw [← hE] at hb
    rw [abs_neg, abs_of_nonneg (by norm_num : (0 : ℝ) ≤ 12089 / 23070)] at hb
    rw [Finset.sum_range_succ, Finset.sum_range_succ, Finset.sum_range_succ,
      Finset.sum_range_succ, Finset.sum_range_zero] at hb
    norm_num [Nat.factorial] at hb
    rcases abs_le.mp hb with ⟨h1, h2⟩
    congr 1
    unfold pyRound1
    have hround : round ((10 : ℝ) * (((-7 : ℚ) : ℝ) +
        0.348 * (((86 : ℚ) : ℝ) * 0.06105 * E) -
        0.7 * ((3 : ℚ) : ℝ) - 4.25)) = -123 := by
      rw [round_eq, Int.floor_eq_iff]
      push_cast
      constructor
      · nlinarith [h1, h2]
      · nlinarith [h1, h2]
    rw [hround]
    push_cast
    norm_num

/-- Closed witness for C5: a record with null humidity degrades to a
null apparent temperature. -/
theorem apparent_temperature_c5_witness :
    apparent_temperature { emptyRecord with temperature := some 1, wind_speed := some 1 } =
      Option.none := by
  exact apparent_temperature_c5.1 _ (Or.inr (Or.inl rfl))

end Gismeteo
